import Mathlib

/-!
Verification of the nagbot resource-lifecycle policy engine against its
natural-language specification.

The development shallowly embeds the relevant Python modules:

* `src/app/parsing.py` — the schedule-tag parser/serializer (`parse_date_tag`,
  `ParsedDate.__str__`, `add_warning_to_tag`);
* `src/app/new_sqaws.py` — the `Instance`/`Volume` lifecycle predicates
  (`is_stoppable`, `is_terminatable`, `is_safe_to_stop`, `is_safe_to_terminate`)
  and `terminate_resource`;
* `src/app/instance.py` and `src/app/snapshot.py` — the later revision's
  predicates (`is_stoppable_without_warning`, `can_be_stopped`,
  `is_safe_to_stop`, `can_be_terminated`, `is_safe_to_terminate_after_warning`);
* `src/app/new_nagbot.py` — the execute-phase instance-termination section.

Modeling conventions:

* Python strings are Lean `String`; Python's lexicographic `<=` on strings is
  `strLe` below (code-point comparison, as CPython compares `str`).
* Dates travel as their `YYYY-MM-DD` strings exactly as in the source.  The
  regex `\d` is modeled as an ASCII digit and `re.IGNORECASE` as ASCII case
  folding (the tags at issue are ASCII).  `datetime.strptime(s, '%Y-%m-%d')`
  succeeds exactly on ten-character `YYYY-MM-DD` strings denoting a proleptic
  Gregorian date with year ≥ 1, and `strftime('%Y-%m-%d')` is modeled as the
  zero-padded rendering, i.e. the identity on such strings.
* Python functions that can raise are embedded with `Option`/`Except`: a
  `none`/`.error` result models an uncaught exception.
* Module-level date constants (`TODAY_YYYY_MM_DD`,
  `MIN_TERMINATION_WARNING_YYYY_MM_DD` = today minus `TERMINATION_WARNING_DAYS`
  = 3 days) become explicit `today`/`min_warning` parameters of the embedded
  functions.
-/

/-- Python lexicographic `<` on lists of characters, by code point. -/
def charListLt : List Char → List Char → Bool
  | [], [] => false
  | [], _ :: _ => true
  | _ :: _, [] => false
  | a :: as, b :: bs =>
      if a.toNat < b.toNat then true
      else if b.toNat < a.toNat then false
      else charListLt as bs

/-- Python string comparison `a <= b` (lexicographic by code point). -/
def strLe (a b : String) : Bool := charListLt a.data b.data || a == b

/-- ASCII decimal digit, the model of the regex class `\d` from parsing.py. -/
def isDig (c : Char) : Bool := 48 ≤ c.toNat && c.toNat ≤ 57

/-- Shape of the regex `\d{4}-\d{2}-\d{2}` on an exact ten-character window. -/
def dateShape : List Char → Bool
  | [y1, y2, y3, y4, h1, m1, m2, h2, d1, d2] =>
      isDig y1 && isDig y2 && isDig y3 && isDig y4 && h1 == '-' &&
      isDig m1 && isDig m2 && h2 == '-' && isDig d1 && isDig d2
  | _ => false

/-- Numeric value of an ASCII digit character. -/
def digVal (c : Char) : Nat := c.toNat - 48

/-- Proleptic Gregorian leap-year rule, as used by `datetime`. -/
def isLeapYear (y : Nat) : Bool := (y % 4 == 0 && !(y % 100 == 0)) || (y % 400 == 0)

/-- Number of days of month `m` in year `y`. -/
def daysInMonth (y m : Nat) : Nat :=
  if m == 2 then (if isLeapYear y then 29 else 28)
  else if m == 4 || m == 6 || m == 9 || m == 11 then 30
  else 31

/-- Calendar validity of a ten-character `YYYY-MM-DD` window: this is the
condition under which `datetime.strptime(s, '%Y-%m-%d')` succeeds on it
(year ≥ 1, month 1..12, day within the month). -/
def calendarValid : List Char → Bool
  | [y1, y2, y3, y4, _, m1, m2, _, d1, d2] =>
      let y := 1000 * digVal y1 + 100 * digVal y2 + 10 * digVal y3 + digVal y4
      let m := 10 * digVal m1 + digVal m2
      let d := 10 * digVal d1 + digVal d2
      decide (1 ≤ y) && decide (1 ≤ m) && decide (m ≤ 12) &&
      decide (1 ≤ d) && decide (d ≤ daysInMonth y m)
  | _ => false

/-- Model of `re.match(r'^(\d{4}-\d{2}-\d{2})', date_tag)` (parsing.py:47):
if the first ten characters have the date shape, return them (the regex
group), otherwise no match.  The rest of the string is unconstrained. -/
def datePrefixGroup : List Char → Option (List Char)
  | y1 :: y2 :: y3 :: y4 :: h1 :: m1 :: m2 :: h2 :: d1 :: d2 :: _ =>
      if dateShape [y1, y2, y3, y4, h1, m1, m2, h2, d1, d2] then
        some [y1, y2, y3, y4, h1, m1, m2, h2, d1, d2]
      else none
  | _ => none

/-- Model of `re.match(r'^On Weekends', date_tag, re.IGNORECASE)`
(parsing.py:56): the first eleven characters match `On Weekends` up to ASCII
case. -/
def weekendPrefix : List Char → Bool
  | c1 :: c2 :: c3 :: c4 :: c5 :: c6 :: c7 :: c8 :: c9 :: c10 :: c11 :: _ =>
      (c1 == 'O' || c1 == 'o') && (c2 == 'N' || c2 == 'n') && (c3 == ' ') &&
      (c4 == 'W' || c4 == 'w') && (c5 == 'E' || c5 == 'e') && (c6 == 'E' || c6 == 'e') &&
      (c7 == 'K' || c7 == 'k') && (c8 == 'E' || c8 == 'e') && (c9 == 'N' || c9 == 'n') &&
      (c10 == 'D' || c10 == 'd') && (c11 == 'S' || c11 == 's')
  | _ => false

/-- Python's `$` in a pattern also matches just before a single trailing
newline; equivalently the regex of parsing.py:60 is matched against the
string with one trailing newline removed. -/
def stripNl (cs : List Char) : List Char :=
  match cs.getLast? with
  | some c => if c == '\n' then cs.dropLast else cs
  | none => cs

/-- The fixed literal of the warning regex, reversed (the 30-character tail
`(Nagbot: Warned on YYYY-MM-DD)` is matched from the end of the string). -/
def warnLitRev : List Char := "(Nagbot: Warned on ".data.reverse

/-- Consume an expected literal from the front of a list, returning the
remainder on success. -/
def stripLit : List Char → List Char → Option (List Char)
  | [], rest => some rest
  | _ :: _, [] => none
  | p :: ps, c :: cs => if c == p then stripLit ps cs else none

/-- Model of `re.match(r'.*\(Nagbot: Warned on (\d{4}-\d{2}-\d{2})\)$', date_tag)`
(parsing.py:60).  Everything after `.*` has fixed width 30, so the tail of the
(newline-stripped) string must be exactly `(Nagbot: Warned on YYYY-MM-DD)` and
the part consumed by `.*` may not contain a newline.  Returns the regex group. -/
def warningGroup (cs : List Char) : Option (List Char) :=
  match (stripNl cs).reverse with
  | cp :: d2 :: d1 :: h2 :: m2 :: m1 :: h1 :: y4 :: y3 :: y2 :: y1 :: rest =>
      if cp == ')' && dateShape [y1, y2, y3, y4, h1, m1, m2, h2, d1, d2] then
        match stripLit warnLitRev rest with
        | some a =>
            if a.all (fun c => !(c == '\n')) then
              some [y1, y2, y3, y4, h1, m1, m2, h2, d1, d2]
            else none
        | none => none
      else none
  | _ => none

/-- The `ParsedDate` dataclass of parsing.py: the spec's `ScheduleTag`. -/
structure ParsedDate where
  expiry_date : Option String
  on_weekends : Bool
  warning_date : Option String
deriving DecidableEq

/-- `ParsedDate.__str__` (parsing.py:31-41), the serializer: `On Weekends` if
the weekend flag is set, else the expiry date if present, else the empty
string; then the warning parenthetical if a warning date is present. -/
def ParsedDate.toStr (pd : ParsedDate) : String :=
  let result :=
    if pd.on_weekends then "On Weekends"
    else
      match pd.expiry_date with
      | some e => e
      | none => ""
  match pd.warning_date with
  | some w => result ++ " (Nagbot: Warned on " ++ w ++ ")"
  | none => result

/-- `parse_date_tag` (parsing.py:44-65).  The expiry branch wraps `strptime`
in try/except (an invalid calendar prefix is silently dropped), but the
warning branch does not: a tag whose warning parenthetical has the date shape
with an invalid calendar date raises `ValueError`, modeled as `none`. -/
def parse_date_tag (date_tag : String) : Option ParsedDate :=
  let cs := date_tag.data
  let expiry : Option String :=
    match datePrefixGroup cs with
    | some ten => if calendarValid ten then some (String.mk ten) else none
    | none => none
  let ow := weekendPrefix cs
  match warningGroup cs with
  | some ten =>
      if calendarValid ten then some ⟨expiry, ow, some (String.mk ten)⟩
      else none
  | none => some ⟨expiry, ow, none⟩

/-- `add_warning_to_tag` (parsing.py:68-72): parse, set the warning date if it
is unset or `replace` is requested, and re-serialize.  Propagates the parser's
possible exception. -/
def add_warning_to_tag (old_date_tag : String) (warning_date : String)
    (replace : Bool) : Option String :=
  (parse_date_tag old_date_tag).map fun pd =>
    if pd.warning_date.isNone || replace then
      ParsedDate.toStr { pd with warning_date := some warning_date }
    else
      ParsedDate.toStr pd

/-- A well-formed serialized date string: exactly the strings on which
`strptime('%Y-%m-%d')` succeeds, and which `strftime('%Y-%m-%d')` can emit. -/
def wellFormedDate (s : String) : Bool := dateShape s.data && calendarValid s.data

/-- Invariant of every `ParsedDate` produced by `parse_date_tag`: the stored
dates are well formed, and the weekend flag excludes a stored expiry date
(both regexes are anchored at the start of the tag). -/
def wellFormedTag (pd : ParsedDate) : Prop :=
  (∀ e, pd.expiry_date = some e → wellFormedDate e = true) ∧
  (∀ w, pd.warning_date = some w → wellFormedDate w = true) ∧
  (pd.on_weekends = true → pd.expiry_date = none)

namespace NewSqaws

/-! Embedding of src/app/new_sqaws.py.  The inner `Instance`/`Volume`
dataclasses carry many reporting fields; only the fields read by the policy
predicates are carried here.  `today` stands for the module constant
`TODAY_YYYY_MM_DD` and `min_warning` for
`MIN_TERMINATION_WARNING_YYYY_MM_DD` (today minus 3 days, new_sqaws.py:16). -/

structure Instance where
  state : String
  stop_after : String
  terminate_after : String
deriving DecidableEq

structure Volume where
  state : String
  terminate_after : String
deriving DecidableEq

/-- `Instance.is_stoppable` (new_sqaws.py:318-326). -/
def Instance.is_stoppable (today : String) (i : Instance) (is_weekend : Bool) :
    Option Bool :=
  (parse_date_tag i.stop_after).map fun pd =>
    i.state == "running" &&
      ((pd.expiry_date.isNone && !pd.on_weekends) ||
       (pd.on_weekends && is_weekend) ||
       (match pd.expiry_date with
        | some e => strLe e today
        | none => false))

/-- `Instance.is_terminatable` (new_sqaws.py:329-334). -/
def Instance.is_terminatable (today : String) (r : Instance) : Option Bool :=
  (parse_date_tag r.terminate_after).map fun pd =>
    r.state == "stopped" &&
      (match pd.expiry_date with
       | some e => strLe e today
       | none => false)

/-- `Instance.is_safe_to_stop` (new_sqaws.py:337-340): stoppable, warned, and
the warning date is at most `TODAY_YYYY_MM_DD` (not the 3-day-old
`MIN_TERMINATION_WARNING_YYYY_MM_DD`). -/
def Instance.is_safe_to_stop (today : String) (i : Instance) (is_weekend : Bool) :
    Option Bool := do
  let pd ← parse_date_tag i.stop_after
  let st ← Instance.is_stoppable today i is_weekend
  pure (st &&
    (match pd.warning_date with
     | some w => strLe w today
     | none => false))

/-- `Instance.is_safe_to_terminate` (new_sqaws.py:343-346): terminatable,
warned, and the warning date is at most `MIN_TERMINATION_WARNING_YYYY_MM_DD`. -/
def Instance.is_safe_to_terminate (today min_warning : String) (r : Instance) :
    Option Bool := do
  let pd ← parse_date_tag r.terminate_after
  let t ← Instance.is_terminatable today r
  pure (t &&
    (match pd.warning_date with
     | some w => strLe w min_warning
     | none => false))

/-- `Instance.terminate_resource` (new_sqaws.py:296-307): issues the provider
call unless `dryrun`; any exception is caught and `False` is returned.  The
provider call's outcome is supplied as an argument. -/
def Instance.terminate_resource (dryrun : Bool) (call : Except String Unit) : Bool :=
  if dryrun then true
  else
    match call with
    | Except.ok _ => true
    | Except.error _ => false

/-- `Volume.is_terminatable` (new_sqaws.py:511-516). -/
def Volume.is_terminatable (today : String) (v : Volume) : Option Bool :=
  (parse_date_tag v.terminate_after).map fun pd =>
    v.state == "available" &&
      (match pd.expiry_date with
       | some e => strLe e today
       | none => false)

/-- `Volume.is_safe_to_terminate` (new_sqaws.py:519-522). -/
def Volume.is_safe_to_terminate (today min_warning : String) (v : Volume) :
    Option Bool := do
  let pd ← parse_date_tag v.terminate_after
  let t ← Volume.is_terminatable today v
  pure (t &&
    (match pd.warning_date with
     | some w => strLe w min_warning
     | none => false))

end NewSqaws

/-- Modelled from the spec: `resource.py` (the abstract `Resource` base class
of the latest revision, imported by instance.py/snapshot.py/ami.py) is not
among the sources; only its callers and tests are.  Per §4.2 of the spec, the
generic terminate-due check that the subclasses invoke through
`super().can_be_terminated(today_date)` is "expiryDate is set AND today ≥
expiryDate" on the parsed terminate-after tag. -/
def generic_can_be_terminated (today terminate_after : String) : Option Bool :=
  (parse_date_tag terminate_after).map fun pd =>
    match pd.expiry_date with
    | some e => strLe e today
    | none => false

/-- Modelled from the spec: the generic safe-to-terminate check of the absent
`resource.py`, invoked through `super().is_safe_to_terminate_after_warning`.
Per §4.2, SafeToAct is "Due(...) && warningDate is set && warningDate ≤
minWarningDate", with Due dispatched to the subclass's `can_be_terminated`;
`min_warning` stands for `util.MIN_TERMINATION_WARNING_YYYY_MM_DD`
(today minus 3 days, util.py:11). -/
def generic_is_safe_to_terminate_after_warning (due : Option Bool)
    (min_warning terminate_after : String) : Option Bool := do
  let d ← due
  let pd ← parse_date_tag terminate_after
  pure (d &&
    (match pd.warning_date with
     | some w => strLe w min_warning
     | none => false))

namespace InstancePy

/-! Embedding of src/app/instance.py (the latest revision's `Instance`).
`today` stands for `util.TODAY_YYYY_MM_DD`. -/

structure Instance where
  state : String
  stop_after : String
  terminate_after : String
  eks_nodegroup_name : String
deriving DecidableEq

/-- `Instance.is_stoppable_without_warning` (instance.py:134-138). -/
def Instance.is_stoppable_without_warning (i : Instance) (is_weekend : Bool) :
    Option Bool :=
  (parse_date_tag i.stop_after).map fun pd =>
    i.state == "running" && pd.expiry_date.isNone &&
      (!pd.on_weekends || (pd.on_weekends && is_weekend))

/-- `Instance.is_stoppable` (instance.py:140-146). -/
def Instance.is_stoppable (i : Instance) (today : String) (is_weekend : Bool) :
    Option Bool :=
  (parse_date_tag i.stop_after).map fun pd =>
    i.state == "running" &&
      ((pd.expiry_date.isNone && !pd.on_weekends) ||
       (pd.on_weekends && is_weekend) ||
       (match pd.expiry_date with
        | some e => strLe e today
        | none => false))

/-- `Instance.can_be_stopped` (instance.py:148-150): EKS node-group members
are excluded (short-circuited before any tag is parsed). -/
def Instance.can_be_stopped (i : Instance) (today : String) (is_weekend : Bool) :
    Option Bool :=
  if i.eks_nodegroup_name.length > 0 then some false
  else do
    let a ← Instance.is_stoppable i today is_weekend
    let b ← Instance.is_stoppable_without_warning i is_weekend
    pure (a || b)

/-- `Instance.is_safe_to_stop` (instance.py:152-157).  Line 154 parses the
stop-after tag before anything else.  On line 157 the code calls
`util.has_date_passed(warning_date)` with a single argument, while
`util.has_date_passed(expiry_date, today_date)` (util.py:65-66) takes two;
whenever that call is reached (instance stoppable but not
stoppable-without-warning) the function raises `TypeError`, modeled as
`none`. -/
def Instance.is_safe_to_stop (i : Instance) (today : String) (is_weekend : Bool) :
    Option Bool := do
  let _ ← parse_date_tag i.stop_after
  if i.eks_nodegroup_name.length > 0 then pure false
  else
    let ww ← Instance.is_stoppable_without_warning i is_weekend
    if ww then pure true
    else
      let st ← Instance.is_stoppable i today is_weekend
      if st then none
      else pure false

/-- `Instance.can_be_terminated` (instance.py:159-162): stopped, not in an
EKS node group, and the generic terminate-due check of the base class. -/
def Instance.can_be_terminated (i : Instance) (today : String) : Option Bool :=
  if !(i.state == "stopped") then some false
  else if i.eks_nodegroup_name.length > 0 then some false
  else generic_can_be_terminated today i.terminate_after

/-- `Instance.is_safe_to_terminate_after_warning` (instance.py:164-167),
with the base-class part modelled from the spec (see
`generic_is_safe_to_terminate_after_warning`). -/
def Instance.is_safe_to_terminate_after_warning (i : Instance)
    (today min_warning : String) : Option Bool :=
  if !(i.state == "stopped") then some false
  else if i.eks_nodegroup_name.length > 0 then some false
  else
    generic_is_safe_to_terminate_after_warning
      (Instance.can_be_terminated i today) min_warning i.terminate_after

end InstancePy

namespace SnapshotPy

/-! Embedding of src/app/snapshot.py. -/

structure Snapshot where
  state : String
  terminate_after : String
  is_ami_snapshot : Bool
  is_aws_backup_snapshot : Bool
deriving DecidableEq

/-- `Snapshot.can_be_terminated` (snapshot.py:128-132): AMI-backed and
AWS-Backup snapshots are excluded up front; otherwise the state must be
`completed` and the generic terminate-due check must hold. -/
def Snapshot.can_be_terminated (today : String) (s : Snapshot) : Option Bool :=
  if s.is_ami_snapshot || s.is_aws_backup_snapshot then some false
  else if !(s.state == "completed") then some false
  else generic_can_be_terminated today s.terminate_after

/-- `Snapshot.is_safe_to_terminate_after_warning` (snapshot.py:134-136), with
the base-class part modelled from the spec. -/
def Snapshot.is_safe_to_terminate_after_warning (s : Snapshot)
    (today min_warning : String) : Option Bool :=
  if !(s.state == "completed") then some false
  else
    generic_is_safe_to_terminate_after_warning
      (Snapshot.can_be_terminated today s) min_warning s.terminate_after

end SnapshotPy

namespace NewNagbot

/-! Embedding of the execute-phase instance-termination section of
src/app/new_nagbot.py (`Nagbot.execute_internal`, lines 151-177). -/

/-- Models new_nagbot.py:155:
`instances_to_terminate = new_sqaws.Instance.get_terminatable_resources(instances, instances)`.
The first argument binds `self`, so `self` is the resource *list*, and
evaluating `self.is_terminatable(i)` inside `get_terminatable_resources`
(new_sqaws.py:314-315) raises `AttributeError` at the first element.  The
generator body never runs on an empty list, so an empty enumeration yields an
empty selection. -/
def get_terminatable_resources_list_self (instances : List NewSqaws.Instance) :
    Except String (List NewSqaws.Instance) :=
  match instances with
  | [] => Except.ok []
  | _ :: _ =>
      Except.error "AttributeError: list object has no attribute is_terminatable"

/-- The instance-termination section of `Nagbot.execute_internal`
(new_nagbot.py:155-157 and 167-177): select terminatable instances (which
raises as above on any non-empty enumeration), filter by
`is_safe_to_terminate`, and either run the summary/terminate loop or send
`No instances were terminated today.`.  The loop is unreachable with a
non-empty selection, so it is represented by its entry point only. -/
def execute_internal_terminate (instances : List NewSqaws.Instance) :
    Except String String := do
  let toTerminate ← get_terminatable_resources_list_self instances
  match toTerminate with
  | [] => Except.ok "No instances were terminated today."
  | _ :: _ =>
      Except.error "AttributeError: Instance object has no attribute resource_id"

end NewNagbot

/-- Follows the spec's words (§4.2, claim C4): the Stop action is due when the
resource is running and (weekend recurrence matches, or the schedule is fully
unset, or the expiry date has passed). -/
def stopDueSpec (state : String) (pd : ParsedDate) (today : String)
    (is_weekend : Bool) : Bool :=
  state == "running" &&
    ((pd.expiry_date.isNone && !pd.on_weekends) ||
     (pd.on_weekends && is_weekend) ||
     (match pd.expiry_date with
      | some e => strLe e today
      | none => false))

/-- Follows the spec's words (§4.2, claim C3): the Terminate action is due
when the resource is in the kind-specific base state and the expiry date is
set and has passed. -/
def termDueSpec (base_state state : String) (pd : ParsedDate) (today : String) :
    Bool :=
  state == base_state &&
    (match pd.expiry_date with
     | some e => strLe e today
     | none => false)

/-! Helper lemmas about characters, digits and the regex components. -/

theorem isDig_beq_false {c : Char} (h : isDig c = true) {d : Char}
    (hd : isDig d = false) : (c == d) = false := by
  apply beq_eq_false_iff_ne.mpr
  intro he
  rw [he, hd] at h
  exact Bool.false_ne_true h

theorem stripLit_self_append (p r : List Char) : stripLit p (p ++ r) = some r := by
  induction p with
  | nil => rfl
  | cons c cs ih => simp [stripLit, ih]

theorem dateShape_ex {cs : List Char} (h : dateShape cs = true) :
    ∃ y1 y2 y3 y4 m1 m2 d1 d2,
      cs = [y1, y2, y3, y4, '-', m1, m2, '-', d1, d2] ∧
      isDig y1 = true ∧ isDig y2 = true ∧ isDig y3 = true ∧ isDig y4 = true ∧
      isDig m1 = true ∧ isDig m2 = true ∧ isDig d1 = true ∧ isDig d2 = true := by
  rcases cs with _ | ⟨y1, cs⟩; · simp [dateShape] at h
  rcases cs with _ | ⟨y2, cs⟩; · simp [dateShape] at h
  rcases cs with _ | ⟨y3, cs⟩; · simp [dateShape] at h
  rcases cs with _ | ⟨y4, cs⟩; · simp [dateShape] at h
  rcases cs with _ | ⟨h1, cs⟩; · simp [dateShape] at h
  rcases cs with _ | ⟨m1, cs⟩; · simp [dateShape] at h
  rcases cs with _ | ⟨m2, cs⟩; · simp [dateShape] at h
  rcases cs with _ | ⟨h2, cs⟩; · simp [dateShape] at h
  rcases cs with _ | ⟨d1, cs⟩; · simp [dateShape] at h
  rcases cs with _ | ⟨d2, cs⟩; · simp [dateShape] at h
  rcases cs with _ | ⟨x, cs⟩
  · simp only [dateShape, Bool.and_eq_true, beq_iff_eq] at h
    obtain ⟨⟨⟨⟨⟨⟨⟨⟨⟨hy1, hy2⟩, hy3⟩, hy4⟩, hh1⟩, hm1⟩, hm2⟩, hh2⟩, hd1⟩, hd2⟩ := h
    subst hh1; subst hh2
    exact ⟨y1, y2, y3, y4, m1, m2, d1, d2, rfl, hy1, hy2, hy3, hy4, hm1, hm2, hd1, hd2⟩
  · simp [dateShape] at h

theorem weekendPrefix_digit_head {c : Char} (h : isDig c = true) (cs : List Char) :
    weekendPrefix (c :: cs) = false := by
  rcases cs with _ | ⟨c2, cs⟩; · rfl
  rcases cs with _ | ⟨c3, cs⟩; · rfl
  rcases cs with _ | ⟨c4, cs⟩; · rfl
  rcases cs with _ | ⟨c5, cs⟩; · rfl
  rcases cs with _ | ⟨c6, cs⟩; · rfl
  rcases cs with _ | ⟨c7, cs⟩; · rfl
  rcases cs with _ | ⟨c8, cs⟩; · rfl
  rcases cs with _ | ⟨c9, cs⟩; · rfl
  rcases cs with _ | ⟨c10, cs⟩; · rfl
  rcases cs with _ | ⟨c11, cs⟩; · rfl
  simp [weekendPrefix, isDig_beq_false h (show isDig 'O' = false by decide),
        isDig_beq_false h (show isDig 'o' = false by decide)]

theorem datePrefixGroup_shape {cs ten : List Char}
    (h : datePrefixGroup cs = some ten) : dateShape ten = true := by
  unfold datePrefixGroup at h
  split at h
  · split at h
    · next hg => exact (Option.some.injEq _ _ ▸ h) ▸ hg
    · exact absurd h (by simp)
  · exact absurd h (by simp)

theorem datePrefixGroup_digit_head {cs ten : List Char}
    (h : datePrefixGroup cs = some ten) :
    ∃ c rest, cs = c :: rest ∧ isDig c = true := by
  unfold datePrefixGroup at h
  split at h
  · next y1 y2 y3 y4 h1 m1 m2 h2 d1 d2 rest =>
      split at h
      · next hg =>
          refine ⟨y1, _, rfl, ?_⟩
          simp only [dateShape, Bool.and_eq_true] at hg
          exact hg.1.1.1.1.1.1.1.1.1
      · exact absurd h (by simp)
  · exact absurd h (by simp)

theorem warningGroup_shape {cs ten : List Char}
    (h : warningGroup cs = some ten) : dateShape ten = true := by
  unfold warningGroup at h
  split at h
  · split at h
    · next hg =>
        split at h
        · split at h
          · simp only [Option.some.injEq] at h
            simp only [Bool.and_eq_true] at hg
            exact h ▸ hg.2
          · exact absurd h (by simp)
        · exact absurd h (by simp)
    · exact absurd h (by simp)
  · exact absurd h (by simp)

theorem stripNl_snoc {c : Char} (l : List Char) (h : (c == '\n') = false) :
    stripNl (l ++ [c]) = l ++ [c] := by
  simp [stripNl, List.getLast?_concat, h]

theorem warningGroup_append (A wd : List Char)
    (hA : A.all (fun c => !(c == '\n')) = true) (hsh : dateShape wd = true) :
    warningGroup (A ++ ("(Nagbot: Warned on ".data ++ (wd ++ [ ')' ]))) = some wd := by
  obtain ⟨y1, y2, y3, y4, m1, m2, d1, d2, rfl, hy1, hy2, hy3, hy4, hm1, hm2, hd1, hd2⟩ :=
    dateShape_ex hsh
  rw [warningGroup]
  rw [show A ++ ("(Nagbot: Warned on ".data ++
        ([y1, y2, y3, y4, '-', m1, m2, '-', d1, d2] ++ [ ')' ])) =
      (A ++ ("(Nagbot: Warned on ".data ++ [y1, y2, y3, y4, '-', m1, m2, '-', d1, d2]))
        ++ [ ')' ] by simp]
  rw [stripNl_snoc _ (by decide)]
  rw [List.reverse_concat, List.reverse_append, List.reverse_append]
  simp only [List.cons_append, List.nil_append, List.reverse_cons, List.reverse_nil,
    List.append_assoc]
  simp [hsh, warnLitRev, stripLit, List.all_reverse, hA]

theorem warningGroup_ten {wd : List Char} (hsh : dateShape wd = true) :
    warningGroup wd = none := by
  obtain ⟨y1, y2, y3, y4, m1, m2, d1, d2, rfl, hy1, hy2, hy3, hy4, hm1, hm2, hd1, hd2⟩ :=
    dateShape_ex hsh
  rw [warningGroup]
  rw [show stripNl [y1, y2, y3, y4, '-', m1, m2, '-', d1, d2] =
      [y1, y2, y3, y4, '-', m1, m2, '-', d1, d2] by
    simp [stripNl, isDig_beq_false hd2 (show isDig '\n' = false by decide)]]
  simp

theorem datePrefixGroup_of_shape {ten : List Char} (rest : List Char)
    (hsh : dateShape ten = true) : datePrefixGroup (ten ++ rest) = some ten := by
  obtain ⟨y1, y2, y3, y4, m1, m2, d1, d2, rfl, -⟩ := dateShape_ex hsh
  simp [datePrefixGroup, hsh]

theorem weekendPrefix_of_shape {ten : List Char} (rest : List Char)
    (hsh : dateShape ten = true) : weekendPrefix (ten ++ rest) = false := by
  obtain ⟨y1, y2, y3, y4, m1, m2, d1, d2, rfl, hy1, -⟩ := dateShape_ex hsh
  exact weekendPrefix_digit_head hy1 _

theorem expiry_part_wf {s : String} {e : String}
    (he : (match datePrefixGroup s.data with
           | some ten => if calendarValid ten then some (String.mk ten) else none
           | none => none) = some e) : wellFormedDate e = true := by
  cases hd : datePrefixGroup s.data with
  | none => rw [hd] at he; simp at he
  | some ten =>
      rw [hd] at he
      by_cases hc : calendarValid ten = true
      · simp only [hc, if_true, Option.some.injEq] at he
        subst he
        simp [wellFormedDate, datePrefixGroup_shape hd, hc]
      · simp [hc] at he

theorem expiry_part_none_of_weekend {s : String}
    (hw : weekendPrefix s.data = true) :
    (match datePrefixGroup s.data with
     | some ten => if calendarValid ten then some (String.mk ten) else none
     | none => none) = none := by
  cases hd : datePrefixGroup s.data with
  | none => rfl
  | some ten =>
      obtain ⟨c, rest, hcs, hdig⟩ := datePrefixGroup_digit_head hd
      rw [hcs] at hw
      rw [weekendPrefix_digit_head hdig] at hw
      exact absurd hw Bool.false_ne_true

theorem parse_wellFormed {s : String} {pd : ParsedDate}
    (h : parse_date_tag s = some pd) : wellFormedTag pd := by
  simp only [parse_date_tag] at h
  cases hw : warningGroup s.data with
  | none =>
      rw [hw] at h
      simp only [Option.some.injEq] at h
      subst h
      refine ⟨fun e he => expiry_part_wf he, fun w hwd => by simp at hwd,
        fun hwk => expiry_part_none_of_weekend hwk⟩
  | some ten =>
      rw [hw] at h
      by_cases hc : calendarValid ten = true
      · simp only [hc, if_true, Option.some.injEq] at h
        subst h
        refine ⟨fun e he => expiry_part_wf he, fun w hwd => ?_,
          fun hwk => expiry_part_none_of_weekend hwk⟩
        simp only [Option.some.injEq] at hwd
        subst hwd
        simp [wellFormedDate, warningGroup_shape hw, hc]
      · simp [hc] at h

theorem strMk_eta (s : String) : String.mk s.data = s := rfl

theorem dateShape_no_newline {ten : List Char} (hsh : dateShape ten = true) :
    ten.all (fun c => !(c == '\n')) = true := by
  obtain ⟨y1, y2, y3, y4, m1, m2, d1, d2, rfl, hy1, hy2, hy3, hy4, hm1, hm2, hd1, hd2⟩ :=
    dateShape_ex hsh
  have hnl : isDig '\n' = false := by decide
  simp [List.all, isDig_beq_false hy1 hnl, isDig_beq_false hy2 hnl,
    isDig_beq_false hy3 hnl, isDig_beq_false hy4 hnl, isDig_beq_false hm1 hnl,
    isDig_beq_false hm2 hnl, isDig_beq_false hd1 hnl, isDig_beq_false hd2 hnl]

theorem parse_toStr {pd : ParsedDate} (h : wellFormedTag pd) :
    parse_date_tag pd.toStr = some pd := by
  obtain ⟨hE, hW, hD⟩ := h
  obtain ⟨eo, ow, wo⟩ := pd
  cases ow with
  | true =>
      have heo : eo = none := hD rfl
      subst heo
      cases wo with
      | none => decide
      | some wd =>
          have hwf : wellFormedDate wd = true := hW wd rfl
          simp only [wellFormedDate, Bool.and_eq_true] at hwf
          obtain ⟨hsh, hc⟩ := hwf
          have hS : (ParsedDate.toStr ⟨none, true, some wd⟩).data =
              "On Weekends ".data ++ ("(Nagbot: Warned on ".data ++ (wd.data ++ [ ')' ])) := by
            simp [ParsedDate.toStr]
          have h3 : warningGroup (ParsedDate.toStr ⟨none, true, some wd⟩).data = some wd.data := by
            rw [hS]; exact warningGroup_append _ _ (by decide) hsh
          have h1 : datePrefixGroup (ParsedDate.toStr ⟨none, true, some wd⟩).data = none := by
            rw [hS]; rfl
          have h2 : weekendPrefix (ParsedDate.toStr ⟨none, true, some wd⟩).data = true := by
            rw [hS]; rfl
          simp [parse_date_tag, h1, h2, h3, hc, strMk_eta]
  | false =>
      cases eo with
      | some e =>
          have hwe : wellFormedDate e = true := hE e rfl
          simp only [wellFormedDate, Bool.and_eq_true] at hwe
          obtain ⟨hshe, hce⟩ := hwe
          cases wo with
          | none =>
              have hS : (ParsedDate.toStr ⟨some e, false, none⟩).data = e.data := by
                simp [ParsedDate.toStr]
              have h1 : datePrefixGroup (ParsedDate.toStr ⟨some e, false, none⟩).data =
                  some e.data := by
                rw [hS]; simpa using datePrefixGroup_of_shape [] hshe
              have h2 : weekendPrefix (ParsedDate.toStr ⟨some e, false, none⟩).data = false := by
                rw [hS]; simpa using weekendPrefix_of_shape [] hshe
              have h3 : warningGroup (ParsedDate.toStr ⟨some e, false, none⟩).data = none := by
                rw [hS]; exact warningGroup_ten hshe
              simp [parse_date_tag, h1, h2, h3, hce, strMk_eta]
          | some wd =>
              have hwf : wellFormedDate wd = true := hW wd rfl
              simp only [wellFormedDate, Bool.and_eq_true] at hwf
              obtain ⟨hsh, hc⟩ := hwf
              have hS : (ParsedDate.toStr ⟨some e, false, some wd⟩).data =
                  e.data ++ (" (Nagbot: Warned on ".data ++ (wd.data ++ [ ')' ])) := by
                simp [ParsedDate.toStr]
              have hS2 : (ParsedDate.toStr ⟨some e, false, some wd⟩).data =
                  (e.data ++ [ ' ' ]) ++ ("(Nagbot: Warned on ".data ++ (wd.data ++ [ ')' ])) := by
                rw [hS]
                simp [show " (Nagbot: Warned on ".data =
                  ' ' :: "(Nagbot: Warned on ".data from rfl]
              have h3 : warningGroup (ParsedDate.toStr ⟨some e, false, some wd⟩).data =
                  some wd.data := by
                rw [hS2]
                refine warningGroup_append _ _ ?_ hsh
                have hnl : (' ' == '\n') = false := by decide
                simp [List.all_append, dateShape_no_newline hshe, List.all, hnl]
              have h1 : datePrefixGroup (ParsedDate.toStr ⟨some e, false, some wd⟩).data =
                  some e.data := by
                rw [hS]; exact datePrefixGroup_of_shape _ hshe
              have h2 : weekendPrefix (ParsedDate.toStr ⟨some e, false, some wd⟩).data =
                  false := by
                rw [hS]; exact weekendPrefix_of_shape _ hshe
              simp [parse_date_tag, h1, h2, h3, hc, hce, strMk_eta]
      | none =>
          cases wo with
          | none => decide
          | some wd =>
              have hwf : wellFormedDate wd = true := hW wd rfl
              simp only [wellFormedDate, Bool.and_eq_true] at hwf
              obtain ⟨hsh, hc⟩ := hwf
              have hS : (ParsedDate.toStr ⟨none, false, some wd⟩).data =
                  [ ' ' ] ++ ("(Nagbot: Warned on ".data ++ (wd.data ++ [ ')' ])) := by
                simp [ParsedDate.toStr]
              have h3 : warningGroup (ParsedDate.toStr ⟨none, false, some wd⟩).data =
                  some wd.data := by
                rw [hS]; exact warningGroup_append _ _ (by decide) hsh
              have h1 : datePrefixGroup (ParsedDate.toStr ⟨none, false, some wd⟩).data =
                  none := by
                rw [hS]; rfl
              have h2 : weekendPrefix (ParsedDate.toStr ⟨none, false, some wd⟩).data =
                  false := by
                rw [hS]; rfl
              simp [parse_date_tag, h1, h2, h3, hc, strMk_eta]

/-! Claim theorems. -/

/-- C2 (code_bug evidence): `parse_date_tag` is not total.  On the input
`(Nagbot: Warned on 2024-13-01)` the warning regex matches (first conjunct),
so parsing.py:62 calls `datetime.strptime('2024-13-01', '%Y-%m-%d')` outside
any try/except and raises `ValueError` (second conjunct: the embedded parser
aborts), contradicting the contract that `parse` never fails and returns an
all-unset `ScheduleTag` on garbage. -/
theorem c2_parse_raises_on_malformed_warning :
    warningGroup "(Nagbot: Warned on 2024-13-01)".data = some "2024-13-01".data ∧
    parse_date_tag "(Nagbot: Warned on 2024-13-01)" = none := by
  constructor
  · decide
  · decide

/-- C10 (counterexample): there is no input string at all for which
`parse_date_tag` returns both an expiry date and the weekend flag — the
expiry regex requires the first character to be a digit while the weekend
regex requires it to be `O`/`o`, and both are anchored at the start. -/
theorem c10_counterexample :
    ¬ ∃ (s : String) (pd : ParsedDate),
        parse_date_tag s = some pd ∧
        pd.expiry_date.isSome = true ∧ pd.on_weekends = true := by
  rintro ⟨s, pd, hp, hsome, how⟩
  obtain ⟨-, -, hD⟩ := parse_wellFormed hp
  rw [hD how] at hsome
  exact absurd hsome (by decide)

/-- C10 (amended): the weekend marker is exclusive of an expiry date —
whenever a parsed tag has `recurringWeekend` set, its `expiryDate` is unset,
because both patterns are anchored at the start of the tag string. -/
theorem c10_amended :
    ∀ (s : String) (pd : ParsedDate), parse_date_tag s = some pd →
      pd.on_weekends = true → pd.expiry_date = none := by
  intro s pd hp how
  exact (parse_wellFormed hp).2.2 how

/-- C10 amended, witness at `On Weekends`. -/
theorem c10_amended_witness :
    (⟨none, true, none⟩ : ParsedDate).expiry_date = none :=
  c10_amended "On Weekends" ⟨none, true, none⟩ (by decide) (by decide)

/-- C7: re-parsing the canonical serialized form of a parsed tag yields
exactly the same `ParsedDate`: whenever `parse_date_tag s` returns a value,
serializing it with `ParsedDate.__str__` and parsing again returns the same
expiry date, weekend flag and warning date. -/
theorem c7_reparse_stable :
    ∀ (s : String) (pd : ParsedDate), parse_date_tag s = some pd →
      parse_date_tag (ParsedDate.toStr pd) = some pd :=
  fun _ _ h => parse_toStr (parse_wellFormed h)

/-- C7, witness at a tag carrying an expiry date and a warning date. -/
theorem c7_witness :
    parse_date_tag (ParsedDate.toStr ⟨some "2019-01-01", false, some "2022-03-04"⟩) =
      some ⟨some "2019-01-01", false, some "2022-03-04"⟩ :=
  c7_reparse_stable "2019-01-01 (Nagbot: Warned on 2022-03-04)"
    ⟨some "2019-01-01", false, some "2022-03-04"⟩ (by decide)

/-- C8: `add_warning_to_tag` with `replace=False` is a no-op when the tag
already carries a warning date (the result re-parses to exactly the same
`ParsedDate`), and with `replace=True` it always produces a string whose
parsed warning date equals `today` (for `today` a serialized calendar date,
as every caller passes `TODAY_YYYY_MM_DD`), leaving the expiry date and
weekend flag unchanged. -/
theorem c8_add_warning :
    ∀ (raw today : String) (pd : ParsedDate), parse_date_tag raw = some pd →
      (pd.warning_date ≠ none →
        add_warning_to_tag raw today false = some (ParsedDate.toStr pd) ∧
        parse_date_tag (ParsedDate.toStr pd) = some pd) ∧
      (wellFormedDate today = true →
        add_warning_to_tag raw today true =
          some (ParsedDate.toStr ⟨pd.expiry_date, pd.on_weekends, some today⟩) ∧
        parse_date_tag (ParsedDate.toStr ⟨pd.expiry_date, pd.on_weekends, some today⟩) =
          some ⟨pd.expiry_date, pd.on_weekends, some today⟩) := by
  intro raw today pd hp
  obtain ⟨hE, hW, hD⟩ := parse_wellFormed hp
  obtain ⟨eo, ow, wo⟩ := pd
  constructor
  · intro hwarn
    cases wo with
    | none => exact absurd rfl hwarn
    | some w =>
        constructor
        · simp [add_warning_to_tag, hp]
        · exact parse_toStr ⟨hE, hW, hD⟩
  · intro htoday
    constructor
    · simp [add_warning_to_tag, hp]
    · refine parse_toStr ⟨hE, ?_, hD⟩
      intro w hw
      simp only [Option.some.injEq] at hw
      subst hw
      exact htoday

/-- C8, witness: an already-warned tag is left unchanged with
`replace=False`, and the warning is overwritten with `replace=True`. -/
theorem c8_witness :
    (add_warning_to_tag "2019-01-01 (Nagbot: Warned on 2022-03-04)" "2024-06-10" false =
        some (ParsedDate.toStr ⟨some "2019-01-01", false, some "2022-03-04"⟩) ∧
      parse_date_tag (ParsedDate.toStr ⟨some "2019-01-01", false, some "2022-03-04"⟩) =
        some ⟨some "2019-01-01", false, some "2022-03-04"⟩) ∧
    (add_warning_to_tag "2019-01-01 (Nagbot: Warned on 2022-03-04)" "2024-06-10" true =
        some (ParsedDate.toStr ⟨some "2019-01-01", false, some "2024-06-10"⟩) ∧
      parse_date_tag (ParsedDate.toStr ⟨some "2019-01-01", false, some "2024-06-10"⟩) =
        some ⟨some "2019-01-01", false, some "2024-06-10"⟩) := by
  have h := c8_add_warning "2019-01-01 (Nagbot: Warned on 2022-03-04)" "2024-06-10"
    ⟨some "2019-01-01", false, some "2022-03-04"⟩ (by decide)
  exact ⟨h.1 (by decide), h.2 (by decide)⟩

/-- C4: for every instance and every `(today, isWeekend)`, Stop is due
(`is_stoppable`, in both the instance.py and the new_sqaws.py revision)
exactly when the state is `running` and (the parsed stop-after tag is fully
unset, or its weekend flag matches a weekend, or its expiry date is set and
has passed); in particular a running instance tagged `On Weekends` is due
exactly on weekends. -/
theorem c4_stop_due_iff :
    ∀ (today : String) (is_weekend : Bool),
      (∀ (i : InstancePy.Instance) (pd : ParsedDate),
        parse_date_tag i.stop_after = some pd →
        (InstancePy.Instance.is_stoppable i today is_weekend = some true ↔
          stopDueSpec i.state pd today is_weekend = true)) ∧
      (∀ (i : NewSqaws.Instance) (pd : ParsedDate),
        parse_date_tag i.stop_after = some pd →
        (NewSqaws.Instance.is_stoppable today i is_weekend = some true ↔
          stopDueSpec i.state pd today is_weekend = true)) ∧
      InstancePy.Instance.is_stoppable ⟨"running", "On Weekends", "", ""⟩ today false =
        some false ∧
      InstancePy.Instance.is_stoppable ⟨"running", "On Weekends", "", ""⟩ today true =
        some true := by
  intro today is_weekend
  refine ⟨?_, ?_, ?_, ?_⟩
  · intro i pd hp
    simp [InstancePy.Instance.is_stoppable, hp, stopDueSpec]
  · intro i pd hp
    simp [NewSqaws.Instance.is_stoppable, hp, stopDueSpec]
  · rfl
  · rfl

/-- C4, witness: a running instance past its stop-after date is due. -/
theorem c4_witness :
    InstancePy.Instance.is_stoppable ⟨"running", "2019-01-01", "", ""⟩ "2024-06-10" false =
        some true ∧
    stopDueSpec "running" ⟨some "2019-01-01", false, none⟩ "2024-06-10" false = true := by
  have h := (c4_stop_due_iff "2024-06-10" false).1
    ⟨"running", "2019-01-01", "", ""⟩ ⟨some "2019-01-01", false, none⟩ (by decide)
  exact ⟨h.mpr (by decide), by decide⟩

/-- C3 (counterexample): the claim's terminate-due base state for snapshots,
`available`, is wrong.  A snapshot in state `completed` with a past expiry
date is terminate-due in the code (`Snapshot.can_be_terminated` returns
true), while the claimed condition — which requires state `available` — is
false for it; its state is not `available`. -/
theorem c3_counterexample :
    parse_date_tag "2019-01-01" = some ⟨some "2019-01-01", false, none⟩ ∧
    SnapshotPy.Snapshot.can_be_terminated "2024-01-01"
      ⟨"completed", "2019-01-01", false, false⟩ = some true ∧
    termDueSpec "available" "completed" ⟨some "2019-01-01", false, none⟩ "2024-01-01" =
      false := by
  refine ⟨by decide, by decide, by decide⟩

/-- C3 (amended): Terminate is due exactly when the resource is in the
kind-specific terminatable base state — `stopped` for instances, `available`
for volumes, `completed` (not `available`) for snapshots, with AMI-backed and
AWS-Backup snapshots additionally excluded — and the parsed terminate-after
tag has an expiry date that is set and has passed; in particular a tag whose
parse yields no expiry date (empty or garbage tag) is never terminate-due. -/
theorem c3_amended :
    ∀ (today : String),
      (∀ (r : NewSqaws.Instance) (pd : ParsedDate),
        parse_date_tag r.terminate_after = some pd →
        (NewSqaws.Instance.is_terminatable today r = some true ↔
          termDueSpec "stopped" r.state pd today = true)) ∧
      (∀ (v : NewSqaws.Volume) (pd : ParsedDate),
        parse_date_tag v.terminate_after = some pd →
        (NewSqaws.Volume.is_terminatable today v = some true ↔
          termDueSpec "available" v.state pd today = true)) ∧
      (∀ (s : SnapshotPy.Snapshot) (pd : ParsedDate),
        parse_date_tag s.terminate_after = some pd →
        (SnapshotPy.Snapshot.can_be_terminated today s = some true ↔
          (!s.is_ami_snapshot && !s.is_aws_backup_snapshot &&
            termDueSpec "completed" s.state pd today) = true)) ∧
      (∀ (v : NewSqaws.Volume) (pd : ParsedDate),
        parse_date_tag v.terminate_after = some pd → pd.expiry_date = none →
        NewSqaws.Volume.is_terminatable today v = some false) := by
  intro today
  refine ⟨?_, ?_, ?_, ?_⟩
  · intro r pd hp
    simp [NewSqaws.Instance.is_terminatable, hp, termDueSpec]
  · intro v pd hp
    simp [NewSqaws.Volume.is_terminatable, hp, termDueSpec]
  · intro s pd hp
    by_cases hx : (s.is_ami_snapshot || s.is_aws_backup_snapshot) = true
    · simp [SnapshotPy.Snapshot.can_be_terminated, hx]
      rcases Bool.or_eq_true_iff.mp hx with h | h <;> simp [h]
    · have hx0 : (s.is_ami_snapshot || s.is_aws_backup_snapshot) = false :=
        Bool.eq_false_iff.mpr hx
      have hx' := Bool.or_eq_false_iff.mp hx0
      simp [SnapshotPy.Snapshot.can_be_terminated, generic_can_be_terminated, hp,
        termDueSpec, hx'.1, hx'.2]
      by_cases hs : s.state = "completed"
      · simp [hs]
      · simp [hs, beq_eq_false_iff_ne.mpr hs]
  · intro v pd hp hnone
    simp [NewSqaws.Volume.is_terminatable, hp, hnone]

/-- C3 amended, witness: a completed snapshot past its terminate-after date
is terminate-due. -/
theorem c3_amended_witness :
    SnapshotPy.Snapshot.can_be_terminated "2024-01-01"
        ⟨"completed", "2019-01-01", false, false⟩ = some true ∧
    NewSqaws.Volume.is_terminatable "2024-01-01" ⟨"available", ""⟩ = some false := by
  have h1 := ((c3_amended "2024-01-01").2.2.1
    ⟨"completed", "2019-01-01", false, false⟩ ⟨some "2019-01-01", false, none⟩
    (by decide)).mpr (by decide)
  have h2 := (c3_amended "2024-01-01").2.2.2 ⟨"available", ""⟩ ⟨none, false, none⟩
    (by decide) rfl
  exact ⟨h1, h2⟩

/-- C1 (counterexample): the execute-phase stop-safety predicate can return
true for a resource whose tag carries no warning date at all.  A running
instance with an empty stop-after tag (which parses to all-unset, so no
warning was ever recorded) satisfies `Instance.is_safe_to_stop` of
instance.py through its `is_stoppable_without_warning` disjunct. -/
theorem c1_counterexample :
    InstancePy.Instance.is_safe_to_stop ⟨"running", "", "", ""⟩ "2024-06-10" false =
      some true ∧
    parse_date_tag "" = some ⟨none, false, none⟩ := by
  refine ⟨by decide, by decide⟩

/-- C1 (amended): the terminate-phase safety predicates
(`is_safe_to_terminate` of new_sqaws.py for instances and volumes, and the
spec-modelled `is_safe_to_terminate_after_warning` used by instance.py and
snapshot.py) return true only if the terminate-after tag carries a warning
date that is at most `minWarningDate = today − WARNING_PERIOD` (the module
constant `MIN_TERMINATION_WARNING_YYYY_MM_DD`).  The stop-phase
`is_safe_to_stop` of new_sqaws.py requires only a recorded warning date at
most `today` (no 3-day lead), and the `is_safe_to_stop` of instance.py can
return true with no recorded warning at all — exactly when the instance is
stoppable-without-warning. -/
theorem c1_amended :
    ∀ (today min_warning : String) (is_weekend : Bool),
      (∀ (r : NewSqaws.Instance),
        NewSqaws.Instance.is_safe_to_terminate today min_warning r = some true →
        ∃ pd w, parse_date_tag r.terminate_after = some pd ∧
          pd.warning_date = some w ∧ strLe w min_warning = true) ∧
      (∀ (v : NewSqaws.Volume),
        NewSqaws.Volume.is_safe_to_terminate today min_warning v = some true →
        ∃ pd w, parse_date_tag v.terminate_after = some pd ∧
          pd.warning_date = some w ∧ strLe w min_warning = true) ∧
      (∀ (i : NewSqaws.Instance),
        NewSqaws.Instance.is_safe_to_stop today i is_weekend = some true →
        ∃ pd w, parse_date_tag i.stop_after = some pd ∧
          pd.warning_date = some w ∧ strLe w today = true) ∧
      (∀ (i : InstancePy.Instance),
        InstancePy.Instance.is_safe_to_stop i today is_weekend = some true →
        InstancePy.Instance.is_stoppable_without_warning i is_weekend = some true) ∧
      (∀ (i : InstancePy.Instance),
        InstancePy.Instance.is_safe_to_terminate_after_warning i today min_warning =
          some true →
        ∃ pd w, parse_date_tag i.terminate_after = some pd ∧
          pd.warning_date = some w ∧ strLe w min_warning = true) ∧
      (∀ (s : SnapshotPy.Snapshot),
        SnapshotPy.Snapshot.is_safe_to_terminate_after_warning s today min_warning =
          some true →
        ∃ pd w, parse_date_tag s.terminate_after = some pd ∧
          pd.warning_date = some w ∧ strLe w min_warning = true) := by
  intro today min_warning is_weekend
  refine ⟨?_, ?_, ?_, ?_, ?_, ?_⟩
  · intro r h
    simp only [NewSqaws.Instance.is_safe_to_terminate, Option.bind_eq_bind,
      bind, Option.bind] at h
    cases hp : parse_date_tag r.terminate_after with
    | none => rw [hp] at h; simp at h
    | some pd =>
        rw [hp] at h
        simp only [NewSqaws.Instance.is_terminatable, hp, Option.map_some'] at h
        simp only [pure, Option.some.injEq, Bool.and_eq_true] at h
        cases hw : pd.warning_date with
        | none => rw [hw] at h; simp at h
        | some w => rw [hw] at h; exact ⟨pd, w, rfl, hw, h.2⟩
  · intro v h
    simp only [NewSqaws.Volume.is_safe_to_terminate, Option.bind_eq_bind,
      bind, Option.bind] at h
    cases hp : parse_date_tag v.terminate_after with
    | none => rw [hp] at h; simp at h
    | some pd =>
        rw [hp] at h
        simp only [NewSqaws.Volume.is_terminatable, hp, Option.map_some'] at h
        simp only [pure, Option.some.injEq, Bool.and_eq_true] at h
        cases hw : pd.warning_date with
        | none => rw [hw] at h; simp at h
        | some w => rw [hw] at h; exact ⟨pd, w, rfl, hw, h.2⟩
  · intro i h
    simp only [NewSqaws.Instance.is_safe_to_stop, Option.bind_eq_bind,
      bind, Option.bind] at h
    cases hp : parse_date_tag i.stop_after with
    | none => rw [hp] at h; simp at h
    | some pd =>
        rw [hp] at h
        simp only [NewSqaws.Instance.is_stoppable, hp, Option.map_some'] at h
        simp only [pure, Option.some.injEq, Bool.and_eq_true] at h
        cases hw : pd.warning_date with
        | none => rw [hw] at h; simp at h
        | some w => rw [hw] at h; exact ⟨pd, w, rfl, hw, h.2⟩
  · intro i h
    simp only [InstancePy.Instance.is_safe_to_stop, Option.bind_eq_bind,
      bind, Option.bind] at h
    cases hp : parse_date_tag i.stop_after with
    | none => rw [hp] at h; simp at h
    | some pd =>
        rw [hp] at h
        by_cases heks : i.eks_nodegroup_name.length > 0
        · rw [if_pos heks] at h; simp [pure] at h
        · rw [if_neg heks] at h
          simp only [InstancePy.Instance.is_stoppable_without_warning, hp,
            Option.map_some'] at h
          simp only [InstancePy.Instance.is_stoppable_without_warning, hp,
            Option.map_some']
          by_cases hww : (i.state == "running" && pd.expiry_date.isNone &&
              (!pd.on_weekends || (pd.on_weekends && is_weekend))) = true
          · rw [hww]
          · rw [Bool.eq_false_iff.mpr hww] at h
            simp only [Bool.false_eq_true, if_false] at h
            cases hst : InstancePy.Instance.is_stoppable i today is_weekend with
            | none => rw [hst] at h; simp at h
            | some st =>
                rw [hst] at h
                cases st with
                | true => simp at h
                | false => simp [pure] at h
  · intro i h
    simp only [InstancePy.Instance.is_safe_to_terminate_after_warning] at h
    by_cases hs : (i.state == "stopped") = true
    · rw [if_neg (by simp [hs])] at h
      by_cases heks : i.eks_nodegroup_name.length > 0
      · rw [if_pos heks] at h; simp at h
      · rw [if_neg heks] at h
        simp only [generic_is_safe_to_terminate_after_warning, Option.bind_eq_bind,
          bind, Option.bind] at h
        cases hd : InstancePy.Instance.can_be_terminated i today with
        | none => rw [hd] at h; simp at h
        | some d =>
            rw [hd] at h
            cases hp : parse_date_tag i.terminate_after with
            | none => rw [hp] at h; simp at h
            | some pd =>
                rw [hp] at h
                simp only [pure, Option.some.injEq, Bool.and_eq_true] at h
                cases hw : pd.warning_date with
                | none => rw [hw] at h; simp at h
                | some w => rw [hw] at h; exact ⟨pd, w, rfl, hw, h.2⟩
    · rw [if_pos (by simp [Bool.eq_false_iff.mpr hs])] at h; simp at h
  · intro s h
    simp only [SnapshotPy.Snapshot.is_safe_to_terminate_after_warning] at h
    by_cases hs : (s.state == "completed") = true
    · rw [if_neg (by simp [hs])] at h
      simp only [generic_is_safe_to_terminate_after_warning, Option.bind_eq_bind,
        bind, Option.bind] at h
      cases hd : SnapshotPy.Snapshot.can_be_terminated today s with
      | none => rw [hd] at h; simp at h
      | some d =>
          rw [hd] at h
          cases hp : parse_date_tag s.terminate_after with
          | none => rw [hp] at h; simp at h
          | some pd =>
              rw [hp] at h
              simp only [pure, Option.some.injEq, Bool.and_eq_true] at h
              cases hw : pd.warning_date with
              | none => rw [hw] at h; simp at h
              | some w => rw [hw] at h; exact ⟨pd, w, rfl, hw, h.2⟩
    · rw [if_pos (by simp [Bool.eq_false_iff.mpr hs])] at h; simp at h

/-- C1 amended, witness: each safety predicate applied at a concrete warned
(or, for instance.py's stop, unwarned) resource, with today = 2024-06-10 and
minWarningDate = 2024-06-07. -/
theorem c1_amended_witness :
    (∃ pd w, parse_date_tag "2019-01-01 (Nagbot: Warned on 2024-06-01)" = some pd ∧
      pd.warning_date = some w ∧ strLe w "2024-06-07" = true) ∧
    (∃ pd w, parse_date_tag "2019-01-01 (Nagbot: Warned on 2024-06-09)" = some pd ∧
      pd.warning_date = some w ∧ strLe w "2024-06-10" = true) ∧
    InstancePy.Instance.is_stoppable_without_warning ⟨"running", "", "", ""⟩ false =
      some true := by
  have h := c1_amended "2024-06-10" "2024-06-07" false
  refine ⟨?_, ?_, ?_⟩
  · exact h.1 ⟨"stopped", "", "2019-01-01 (Nagbot: Warned on 2024-06-01)"⟩ (by decide)
  · exact h.2.2.1 ⟨"running", "2019-01-01 (Nagbot: Warned on 2024-06-09)", ""⟩ (by decide)
  · exact h.2.2.2.1 ⟨"running", "", "", ""⟩ (by decide)

/-- C5 (counterexample): the exclusion predicates do not always *return*
false — `Instance.is_safe_to_stop` of instance.py parses the stop-after tag
before the EKS check (instance.py:154), so for an EKS-node-group instance
whose tag has a shape-valid but calendar-invalid warning date the call raises
the parser's `ValueError` instead of returning false. -/
theorem c5_counterexample :
    (⟨"running", "(Nagbot: Warned on 2024-13-01)", "", "node-1"⟩ :
        InstancePy.Instance).eks_nodegroup_name ≠ "" ∧
    InstancePy.Instance.is_safe_to_stop
      ⟨"running", "(Nagbot: Warned on 2024-13-01)", "", "node-1"⟩ "2024-06-10" false =
      none := by
  refine ⟨by decide, by decide⟩

/-- C5 (amended): the exclusions never authorize an action.  For every date
and every tag value: an AMI-backed or AWS-Backup snapshot is never
terminatable (`can_be_terminated` returns false and the safe-to-terminate
check never returns true, returning false whenever the tag parses); an
instance in an EKS node group is never stoppable or terminatable
(`can_be_stopped` and `can_be_terminated` return false, and
`is_safe_to_stop` never returns true, returning false whenever its tag
parses — on a tag whose warning annotation is shape-valid but
calendar-invalid it propagates the parser's ValueError instead). -/
theorem c5_amended :
    ∀ (today min_warning : String) (is_weekend : Bool),
      (∀ i : InstancePy.Instance, i.eks_nodegroup_name ≠ "" →
        InstancePy.Instance.can_be_stopped i today is_weekend = some false ∧
        InstancePy.Instance.can_be_terminated i today = some false ∧
        InstancePy.Instance.is_safe_to_stop i today is_weekend ≠ some true ∧
        (∀ pd, parse_date_tag i.stop_after = some pd →
          InstancePy.Instance.is_safe_to_stop i today is_weekend = some false)) ∧
      (∀ s : SnapshotPy.Snapshot,
        (s.is_ami_snapshot || s.is_aws_backup_snapshot) = true →
        SnapshotPy.Snapshot.can_be_terminated today s = some false ∧
        SnapshotPy.Snapshot.is_safe_to_terminate_after_warning s today min_warning ≠
          some true ∧
        (∀ pd, parse_date_tag s.terminate_after = some pd →
          SnapshotPy.Snapshot.is_safe_to_terminate_after_warning s today min_warning =
            some false)) := by
  intro today min_warning is_weekend
  have hlen : ∀ t : String, t ≠ "" → t.length > 0 := by
    intro t ht
    obtain ⟨l⟩ := t
    cases l with
    | nil => exact absurd rfl ht
    | cons c cs => simp [String.length]
  constructor
  · intro i heks
    have hpos := hlen _ heks
    refine ⟨?_, ?_, ?_, ?_⟩
    · simp [InstancePy.Instance.can_be_stopped, hpos]
    · by_cases hs : (i.state == "stopped") = true
      · simp [InstancePy.Instance.can_be_terminated, hs, hpos]
      · simp [InstancePy.Instance.can_be_terminated, Bool.eq_false_iff.mpr hs]
    · simp only [InstancePy.Instance.is_safe_to_stop, Option.bind_eq_bind,
        bind, Option.bind]
      cases hp : parse_date_tag i.stop_after with
      | none => simp
      | some pd => simp [hpos, pure]
    · intro pd hp
      simp only [InstancePy.Instance.is_safe_to_stop, Option.bind_eq_bind,
        bind, Option.bind, hp]
      simp [hpos, pure]
  · intro s hx
    refine ⟨?_, ?_, ?_⟩
    · simp [SnapshotPy.Snapshot.can_be_terminated, hx]
    · simp only [SnapshotPy.Snapshot.is_safe_to_terminate_after_warning]
      by_cases hs : (s.state == "completed") = true
      · rw [if_neg (by simp [hs])]
        simp only [generic_is_safe_to_terminate_after_warning,
          SnapshotPy.Snapshot.can_be_terminated, hx, if_true, Option.bind_eq_bind,
          bind, Option.bind]
        cases hp : parse_date_tag s.terminate_after with
        | none => simp
        | some pd => simp [pure]
      · rw [if_pos (by simp [Bool.eq_false_iff.mpr hs])]
        simp
    · intro pd hp
      simp only [SnapshotPy.Snapshot.is_safe_to_terminate_after_warning]
      by_cases hs : (s.state == "completed") = true
      · rw [if_neg (by simp [hs])]
        simp only [generic_is_safe_to_terminate_after_warning,
          SnapshotPy.Snapshot.can_be_terminated, hx, if_true, Option.bind_eq_bind,
          bind, Option.bind, hp]
        simp [pure]
      · rw [if_pos (by simp [Bool.eq_false_iff.mpr hs])]

/-- C5 amended, witness: a concrete EKS instance and a concrete AMI snapshot,
each otherwise past-due and warned long ago, are still excluded. -/
theorem c5_amended_witness :
    (InstancePy.Instance.can_be_stopped
        ⟨"running", "2019-01-01 (Nagbot: Warned on 2024-06-01)", "", "node-1"⟩
        "2024-06-10" false = some false ∧
      InstancePy.Instance.can_be_terminated
        ⟨"running", "2019-01-01 (Nagbot: Warned on 2024-06-01)", "", "node-1"⟩
        "2024-06-10" = some false) ∧
    SnapshotPy.Snapshot.can_be_terminated "2024-06-10"
      ⟨"completed", "2019-01-01 (Nagbot: Warned on 2024-06-01)", true, false⟩ =
      some false := by
  have h := c5_amended "2024-06-10" "2024-06-07" false
  have h1 := h.1 ⟨"running", "2019-01-01 (Nagbot: Warned on 2024-06-01)", "", "node-1"⟩
    (by decide)
  have h2 := h.2 ⟨"completed", "2019-01-01 (Nagbot: Warned on 2024-06-01)", true, false⟩
    (by decide)
  exact ⟨⟨h1.1, h1.2.1⟩, h2.1⟩

/-- C6: SafeToAct implies Due, for every resource, date and action kind:
whenever a safe-to-act predicate returns true, the corresponding due
predicate returns true on the same resource and date (new_sqaws.py
`is_safe_to_stop` → `is_stoppable`, `is_safe_to_terminate` →
`is_terminatable` for instances and volumes; instance.py `is_safe_to_stop` →
`can_be_stopped`; the spec-modelled `is_safe_to_terminate_after_warning` →
`can_be_terminated` for instances and snapshots). -/
theorem c6_safe_implies_due :
    ∀ (today min_warning : String) (is_weekend : Bool),
      (∀ i : NewSqaws.Instance,
        NewSqaws.Instance.is_safe_to_stop today i is_weekend = some true →
        NewSqaws.Instance.is_stoppable today i is_weekend = some true) ∧
      (∀ r : NewSqaws.Instance,
        NewSqaws.Instance.is_safe_to_terminate today min_warning r = some true →
        NewSqaws.Instance.is_terminatable today r = some true) ∧
      (∀ v : NewSqaws.Volume,
        NewSqaws.Volume.is_safe_to_terminate today min_warning v = some true →
        NewSqaws.Volume.is_terminatable today v = some true) ∧
      (∀ i : InstancePy.Instance,
        InstancePy.Instance.is_safe_to_stop i today is_weekend = some true →
        InstancePy.Instance.can_be_stopped i today is_weekend = some true) ∧
      (∀ i : InstancePy.Instance,
        InstancePy.Instance.is_safe_to_terminate_after_warning i today min_warning =
          some true →
        InstancePy.Instance.can_be_terminated i today = some true) ∧
      (∀ s : SnapshotPy.Snapshot,
        SnapshotPy.Snapshot.is_safe_to_terminate_after_warning s today min_warning =
          some true →
        SnapshotPy.Snapshot.can_be_terminated today s = some true) := by
  intro today min_warning is_weekend
  refine ⟨?_, ?_, ?_, ?_, ?_, ?_⟩
  · intro i h
    simp only [NewSqaws.Instance.is_safe_to_stop, Option.bind_eq_bind,
      bind, Option.bind] at h
    cases hp : parse_date_tag i.stop_after with
    | none => rw [hp] at h; simp at h
    | some pd =>
        rw [hp] at h
        cases hst : NewSqaws.Instance.is_stoppable today i is_weekend with
        | none => rw [hst] at h; simp at h
        | some st =>
            rw [hst] at h
            simp only [pure, Option.some.injEq, Bool.and_eq_true] at h
            rw [h.1]
  · intro r h
    simp only [NewSqaws.Instance.is_safe_to_terminate, Option.bind_eq_bind,
      bind, Option.bind] at h
    cases hp : parse_date_tag r.terminate_after with
    | none => rw [hp] at h; simp at h
    | some pd =>
        rw [hp] at h
        cases hst : NewSqaws.Instance.is_terminatable today r with
        | none => rw [hst] at h; simp at h
        | some st =>
            rw [hst] at h
            simp only [pure, Option.some.injEq, Bool.and_eq_true] at h
            rw [h.1]
  · intro v h
    simp only [NewSqaws.Volume.is_safe_to_terminate, Option.bind_eq_bind,
      bind, Option.bind] at h
    cases hp : parse_date_tag v.terminate_after with
    | none => rw [hp] at h; simp at h
    | some pd =>
        rw [hp] at h
        cases hst : NewSqaws.Volume.is_terminatable today v with
        | none => rw [hst] at h; simp at h
        | some st =>
            rw [hst] at h
            simp only [pure, Option.some.injEq, Bool.and_eq_true] at h
            rw [h.1]
  · intro i h
    simp only [InstancePy.Instance.is_safe_to_stop, Option.bind_eq_bind,
      bind, Option.bind] at h
    cases hp : parse_date_tag i.stop_after with
    | none => rw [hp] at h; simp at h
    | some pd =>
        rw [hp] at h
        by_cases heks : i.eks_nodegroup_name.length > 0
        · rw [if_pos heks] at h; simp [pure] at h
        · rw [if_neg heks] at h
          simp only [InstancePy.Instance.can_be_stopped, if_neg heks,
            Option.bind_eq_bind, bind, Option.bind]
          cases hww : InstancePy.Instance.is_stoppable_without_warning i is_weekend with
          | none =>
              simp only [InstancePy.Instance.is_stoppable_without_warning, hp,
                Option.map_some'] at hww
              simp at hww
          | some ww =>
              rw [hww] at h
              cases ww with
              | true =>
                  cases hst : InstancePy.Instance.is_stoppable i today is_weekend with
                  | none =>
                      simp only [InstancePy.Instance.is_stoppable, hp,
                        Option.map_some'] at hst
                      simp at hst
                  | some st => simp [pure]
              | false =>
                  simp only [Bool.false_eq_true, if_false] at h
                  cases hst : InstancePy.Instance.is_stoppable i today is_weekend with
                  | none => rw [hst] at h; simp at h
                  | some st =>
                      rw [hst] at h
                      cases st with
                      | true => simp at h
                      | false => simp [pure] at h
  · intro i h
    simp only [InstancePy.Instance.is_safe_to_terminate_after_warning] at h
    by_cases hs : (i.state == "stopped") = true
    · rw [if_neg (by simp [hs])] at h
      by_cases heks : i.eks_nodegroup_name.length > 0
      · rw [if_pos heks] at h; simp at h
      · rw [if_neg heks] at h
        simp only [generic_is_safe_to_terminate_after_warning, Option.bind_eq_bind,
          bind, Option.bind] at h
        cases hd : InstancePy.Instance.can_be_terminated i today with
        | none => rw [hd] at h; simp at h
        | some d =>
            rw [hd] at h
            cases hp : parse_date_tag i.terminate_after with
            | none => rw [hp] at h; simp at h
            | some pd =>
                rw [hp] at h
                simp only [pure, Option.some.injEq, Bool.and_eq_true] at h
                rw [h.1]
    · rw [if_pos (by simp [Bool.eq_false_iff.mpr hs])] at h; simp at h
  · intro s h
    simp only [SnapshotPy.Snapshot.is_safe_to_terminate_after_warning] at h
    by_cases hs : (s.state == "completed") = true
    · rw [if_neg (by simp [hs])] at h
      simp only [generic_is_safe_to_terminate_after_warning, Option.bind_eq_bind,
        bind, Option.bind] at h
      cases hd : SnapshotPy.Snapshot.can_be_terminated today s with
      | none => rw [hd] at h; simp at h
      | some d =>
          rw [hd] at h
          cases hp : parse_date_tag s.terminate_after with
          | none => rw [hp] at h; simp at h
          | some pd =>
              rw [hp] at h
              simp only [pure, Option.some.injEq, Bool.and_eq_true] at h
              rw [h.1]
    · rw [if_pos (by simp [Bool.eq_false_iff.mpr hs])] at h; simp at h

/-- C6, witness: safe-to-act holds (so due holds) at concrete warned
resources, today = 2024-06-10, minWarningDate = 2024-06-07. -/
theorem c6_witness :
    NewSqaws.Instance.is_stoppable "2024-06-10"
        ⟨"running", "2019-01-01 (Nagbot: Warned on 2024-06-09)", ""⟩ false = some true ∧
    NewSqaws.Instance.is_terminatable "2024-06-10"
        ⟨"stopped", "", "2019-01-01 (Nagbot: Warned on 2024-06-01)"⟩ = some true ∧
    NewSqaws.Volume.is_terminatable "2024-06-10"
        ⟨"available", "2019-01-01 (Nagbot: Warned on 2024-06-01)"⟩ = some true ∧
    InstancePy.Instance.can_be_stopped ⟨"running", "", "", ""⟩ "2024-06-10" false =
        some true ∧
    InstancePy.Instance.can_be_terminated
        ⟨"stopped", "", "2019-01-01 (Nagbot: Warned on 2024-06-01)", ""⟩ "2024-06-10" =
        some true ∧
    SnapshotPy.Snapshot.can_be_terminated "2024-06-10"
        ⟨"completed", "2019-01-01 (Nagbot: Warned on 2024-06-01)", false, false⟩ =
        some true := by
  have h := c6_safe_implies_due "2024-06-10" "2024-06-07" false
  refine ⟨?_, ?_, ?_, ?_, ?_, ?_⟩
  · exact h.1 ⟨"running", "2019-01-01 (Nagbot: Warned on 2024-06-09)", ""⟩ (by decide)
  · exact h.2.1 ⟨"stopped", "", "2019-01-01 (Nagbot: Warned on 2024-06-01)"⟩ (by decide)
  · exact h.2.2.1 ⟨"available", "2019-01-01 (Nagbot: Warned on 2024-06-01)"⟩ (by decide)
  · exact h.2.2.2.1 ⟨"running", "", "", ""⟩ (by decide)
  · exact h.2.2.2.2.1
      ⟨"stopped", "", "2019-01-01 (Nagbot: Warned on 2024-06-01)", ""⟩ (by decide)
  · exact h.2.2.2.2.2
      ⟨"completed", "2019-01-01 (Nagbot: Warned on 2024-06-01)", false, false⟩ (by decide)

/-- C9 (code_bug evidence): the execute phase is not failure-isolated as
claimed.  Three concrete stopped, past-expiry, 3-days-warned instances are
each terminate-eligible and safe to terminate (first three conjuncts), yet
the instance-termination section of `execute_internal` aborts with
`AttributeError` before attempting any of them, because new_nagbot.py:155
binds the resource list itself as `self` in
`Instance.get_terminatable_resources(instances, instances)` (fourth
conjunct); only an empty enumeration completes, with the no-op message
(fifth conjunct).  The per-resource mutation wrapper itself does catch
provider failures and convert them to a boolean (last two conjuncts), but
its result is discarded by the loop, which appends the resource's summary
line to the outgoing message before the call and never records a failure
line. -/
theorem c9_execute_not_failure_isolated :
    NewSqaws.Instance.is_safe_to_terminate "2024-06-10" "2024-06-07"
        ⟨"stopped", "", "2019-01-01 (Nagbot: Warned on 2024-06-01)"⟩ = some true ∧
    NewSqaws.Instance.is_safe_to_terminate "2024-06-10" "2024-06-07"
        ⟨"stopped", "", "2019-01-02 (Nagbot: Warned on 2024-06-01)"⟩ = some true ∧
    NewSqaws.Instance.is_safe_to_terminate "2024-06-10" "2024-06-07"
        ⟨"stopped", "", "2019-01-03 (Nagbot: Warned on 2024-06-01)"⟩ = some true ∧
    NewNagbot.execute_internal_terminate
        [⟨"stopped", "", "2019-01-01 (Nagbot: Warned on 2024-06-01)"⟩,
         ⟨"stopped", "", "2019-01-02 (Nagbot: Warned on 2024-06-01)"⟩,
         ⟨"stopped", "", "2019-01-03 (Nagbot: Warned on 2024-06-01)"⟩] =
      Except.error "AttributeError: list object has no attribute is_terminatable" ∧
    NewNagbot.execute_internal_terminate [] =
      Except.ok "No instances were terminated today." ∧
    NewSqaws.Instance.terminate_resource false (Except.error "AccessDenied") = false ∧
    NewSqaws.Instance.terminate_resource false (Except.ok ()) = true := by
  refine ⟨by decide, by decide, by decide, rfl, rfl, rfl, rfl⟩
